import Mathlib

/-!
Verification development for the `vkcs_db_cluster_with_shards` resource
(`src/vkcs/compute/data_source_flavor.go`, second compilation unit, package `db`).

The shallow embedding below translates, from the Go source:
  * the create path `resourceDatabaseClusterWithShardsCreate` (lines 796-944):
    expanding the declared shard list into per-instance creation descriptors;
  * the read path `resourceDatabaseClusterWithShardsRead` (lines 946-1032):
    grouping remote instances into shards, sorting them by shard id and
    partitioning them against the locally declared shard list;
  * the update path `resourceDatabaseClusterWithShardsUpdate` (lines 1034-1133):
    field-level change detection producing a deterministic sequence of update
    actions, executed until the first failure;
  * the error mapping `databaseClusterWithShardsUpdateProcessError`
    (lines 1164-1216);
  * the poll configurations (`resource.StateChangeConf`) built by the create,
    update and delete paths, and the schema timeout declarations (454-457);
  * the datastore-type `ValidateFunc` of the schema (lines 492-498).

Go machine integers are modelled as `Int` (no arithmetic here overflows),
Go strings as `String` (`List Char` where character-level operations such as
`strings.Replace` are needed), fallible code as `Except`/`Option`.
Helpers that live in other files of the repository (the `extractDatabase*`
converters, the shard grouping helpers and the per-action executors) are
modelled from the spec and marked as such in their doc comments.
-/

/-! ## Data model (schema of the resource, lines 459-791) -/

/-- A `wal_volume` block of a shard (schema lines 695-716). -/
structure WalVolumeSpec where
  size : Int
  volume_type : String
deriving DecidableEq

/-- A `network` block of a shard (schema lines 718-755). -/
structure DBNetwork where
  uuid : String
  port : String
  subnet_id : String
  security_groups : List String
deriving DecidableEq

/-- A `shard` block (schema lines 642-790).  `instances` is computed-only and
therefore not part of the declared spec. -/
structure ShardSpec where
  shard_id : String
  size : Int
  shrink_options : List String
  flavor_id : String
  volume_size : Int
  volume_type : String
  wal_volume : Option WalVolumeSpec
  network : List DBNetwork
  availability_zone : String
deriving DecidableEq

/-- A `datastore` block (schema lines 475-504). -/
structure Datastore where
  version : String
  dsType : String
deriving DecidableEq

/-- A `disk_autoexpand` / `wal_disk_autoexpand` block (schema lines 546-592). -/
structure AutoExpandOpts where
  autoexpand : Bool
  max_disk_size : Int
deriving DecidableEq

/-- A `capabilities` block element (schema lines 594-615). -/
structure CapabilityOpt where
  name : String
  settings : List (String × String)
deriving DecidableEq

/-- A `restore_point` block (schema lines 617-633). -/
structure RestorePoint where
  backup_id : String
deriving DecidableEq

/-- The declared cluster configuration, as the typed values the schema layer
hands to the lifecycle functions.  Optional single-block lists are `Option`
(`d.GetOk` is false exactly when the block is absent); the optional string
`configuration_id` uses `""` for unset, mirroring the Go zero value. -/
structure ClusterSpec where
  name : String
  floating_ip_enabled : Bool
  cloud_monitoring_enabled : Bool
  restore_point : Option RestorePoint
  datastore : Option Datastore
  disk_autoexpand : Option AutoExpandOpts
  wal_disk_autoexpand : Option AutoExpandOpts
  keypair : String
  configuration_id : String
  capabilities : List CapabilityOpt
  shards : List ShardSpec
deriving DecidableEq

/-! ## Create path: the Spec Translator (lines 796-944) -/

/-- `clusters.InstanceCreateOpts` as filled in by the create path
(lines 858-881): one creation descriptor per instance. -/
structure InstanceCreateOpts where
  volume : Option WalVolumeSpec
  nics : List DBNetwork
  securityGroups : List String
  availabilityZone : String
  flavorRef : String
  shardID : String
  walvolume : Option WalVolumeSpec
  keypair : String
deriving DecidableEq

/-- `clusters.CreateOpts` as filled in by the create path (lines 803-890). -/
structure ClusterCreateOpts where
  name : String
  floatingIPEnabled : Bool
  cloudMonitoringEnabled : Bool
  restorePoint : Option RestorePoint
  datastore : Option Datastore
  autoExpand : Int
  maxDiskSize : Int
  walAutoExpand : Int
  walMaxDiskSize : Int
  instances : List InstanceCreateOpts
  capabilities : List CapabilityOpt
deriving DecidableEq

/-- Modelled from the spec: `extractDatabaseRestorePoint` (not under `src/`)
converts the raw `restore_point` block into typed options; on the typed values
supplied by the schema boundary it always succeeds. -/
def extractDatabaseRestorePoint (rp : RestorePoint) : Except String RestorePoint :=
  .ok rp

/-- Modelled from the spec: `extractDatabaseDatastore` (not under `src/`)
converts the raw `datastore` block into typed options; on typed values it
always succeeds. -/
def extractDatabaseDatastore (ds : Datastore) : Except String Datastore :=
  .ok ds

/-- Modelled from the spec: `extractDatabaseAutoExpand` (not under `src/`)
converts a raw autoexpand block into typed options; on typed values it always
succeeds. -/
def extractDatabaseAutoExpand (ae : AutoExpandOpts) : Except String AutoExpandOpts :=
  .ok ae

/-- Modelled from the spec: `extractDatabaseWalVolume` (not under `src/`)
converts the raw `wal_volume` block into typed options; on typed values it
always succeeds. -/
def extractDatabaseWalVolume (wv : WalVolumeSpec) : Except String WalVolumeSpec :=
  .ok wv

/-- Modelled from the spec: `extractDatabaseCapabilities` (not under `src/`)
converts the raw capability blocks into typed options; on typed values it
always succeeds. -/
def extractDatabaseCapabilities (cs : List CapabilityOpt) : Except String (List CapabilityOpt) :=
  .ok cs

/-- Modelled from the spec: `extractDatabaseNetworks` (not under `src/`) splits
the `network` blocks of a shard into nic specifications and the collected
security groups (line 865 destructures its result into `Nics` and
`SecurityGroups`). -/
def extractDatabaseNetworks (nets : List DBNetwork) : List DBNetwork × List String :=
  (nets, (nets.map (·.security_groups)).flatten)

/-- The per-shard instance descriptor built by one iteration of the shard loop
(lines 858-877): volume, nics/security groups, availability zone, flavor,
shard id and optional wal volume all come from that shard; the keypair is
filled in by the second loop (lines 879-881). -/
def shardInstanceCreateOpts (s : ShardSpec) : Except String InstanceCreateOpts := do
  let wal ← match s.wal_volume with
    | some wv => do
        let w ← extractDatabaseWalVolume wv
        pure (some w)
    | none => pure none
  pure
    { volume := some ⟨s.volume_size, s.volume_type⟩
      nics := (extractDatabaseNetworks s.network).1
      securityGroups := (extractDatabaseNetworks s.network).2
      availabilityZone := s.availability_zone
      flavorRef := s.flavor_id
      shardID := s.shard_id
      walvolume := wal
      keypair := "" }

/-- Second loop of the create path (lines 879-881): the cluster-wide keypair is
set on every shard descriptor. -/
def setKeypair (kp : String) (l : List InstanceCreateOpts) : List InstanceCreateOpts :=
  l.map fun o => { o with keypair := kp }

/-- How the create path can fail before the remote call: a returned
`diag.Errorf` diagnostic, or a Go runtime panic. -/
inductive CreateFailure where
  | diag (msg : String)
  | panic
deriving DecidableEq

/-- The flattening loop (lines 882-889): `clusterInstances` is allocated with
the signed length `instanceCount` (the plain sum of the declared sizes) and
each shard descriptor is written `shardSize` times, shard by shard in
declared order (`clusterInstances[k] = shardInfo[i]` with `k` advancing
across shards); the inner Go loop `for j := 0; j < shardSize; j++` runs
`max size 0` times, hence `Int.toNat`.  If any declared size is negative the
Go code panics — `make` with a negative `instanceCount`, or otherwise an
index overrun at `clusterInstances[k]` because the writes outnumber the
slice length — modelled as `none`. -/
def expandShardInstances : List (InstanceCreateOpts × Int) → Option (List InstanceCreateOpts)
  | [] => some []
  | (o, k) :: rest =>
      if k < 0 then none
      else (expandShardInstances rest).map (List.replicate k.toNat o ++ ·)

/-- `resourceDatabaseClusterWithShardsCreate` up to the construction of
`createOpts` (lines 803-902), i.e. everything that happens before the remote
`clusters.Create` call.  Each `d.GetOk` guard becomes a `match` on the
corresponding `Option`/emptiness, and each extract-helper error becomes the
corresponding `"unable to determine …"` diagnostic (lines 809-851, 869-876,
892-902). -/
def resourceDatabaseClusterWithShardsCreateOpts (spec : ClusterSpec) :
    Except CreateFailure ClusterCreateOpts := do
  let message := "unable to determine vkcs_db_cluster_with_shards"
  let mut0 : ClusterCreateOpts :=
    { name := spec.name
      floatingIPEnabled := spec.floating_ip_enabled
      cloudMonitoringEnabled := spec.cloud_monitoring_enabled
      restorePoint := none
      datastore := none
      autoExpand := 0
      maxDiskSize := 0
      walAutoExpand := 0
      walMaxDiskSize := 0
      instances := []
      capabilities := [] }
  let mut1 ← match spec.restore_point with
    | some rp =>
        match extractDatabaseRestorePoint rp with
        | .ok r => pure { mut0 with restorePoint := some r }
        | .error _ => .error (CreateFailure.diag (message ++ " restore_point"))
    | none => pure mut0
  let mut2 ← match spec.datastore with
    | some ds =>
        match extractDatabaseDatastore ds with
        | .ok d => pure { mut1 with datastore := some d }
        | .error _ => .error (CreateFailure.diag (message ++ " datastore"))
    | none => pure mut1
  let mut3 ← match spec.disk_autoexpand with
    | some ae =>
        match extractDatabaseAutoExpand ae with
        | .ok a =>
            pure { mut2 with
                    autoExpand := if a.autoexpand then 1 else 0
                    maxDiskSize := a.max_disk_size }
        | .error _ => .error (CreateFailure.diag (message ++ " disk_autoexpand"))
    | none => pure mut2
  let mut4 ← match spec.wal_disk_autoexpand with
    | some ae =>
        match extractDatabaseAutoExpand ae with
        | .ok a =>
            pure { mut3 with
                    walAutoExpand := if a.autoexpand then 1 else 0
                    walMaxDiskSize := a.max_disk_size }
        | .error _ => .error (CreateFailure.diag (message ++ " wal_disk_autoexpand"))
    | none => pure mut3
  let shardInfo ← match spec.shards.mapM shardInstanceCreateOpts with
    | .ok l => pure l
    | .error _ => .error (CreateFailure.diag (message ++ " wal_volume"))
  let shardInfoKp := setKeypair spec.keypair shardInfo
  let clusterInstances ← match
      expandShardInstances (shardInfoKp.zip (spec.shards.map (·.size))) with
    | some l => pure l
    | none => .error CreateFailure.panic
  let mut5 := { mut4 with instances := clusterInstances }
  let mut6 ← match spec.capabilities with
    | [] => pure mut5
    | cs =>
        match extractDatabaseCapabilities cs with
        | .ok c => pure { mut5 with capabilities := c }
        | .error _ => .error (CreateFailure.diag (message ++ " capability"))
  pure mut6

/-- Total instance count of a shard list: the sum accumulated in
`instanceCount` (line 862), clamped per shard as the flattening loop does. -/
def totalDeclaredSize (shards : List ShardSpec) : Nat :=
  (shards.map (·.size.toNat)).sum

/-- Offset of shard `i`'s contiguous block inside the flat instance list. -/
def shardOffset (shards : List ShardSpec) (i : Nat) : Nat :=
  totalDeclaredSize (shards.take i)

/-! ## Read path: the Topology Reconciler (lines 946-1032) -/

/-- `clusters.ClusterInstanceResp`: one remote instance as reported by the
control plane, tagged with its shard id. -/
structure ClusterInstanceResp where
  id : String
  shardID : String
  ip : List String
deriving DecidableEq

/-- One reconciled shard view: shard id, recomputed size and instance list. -/
structure FlattenedShard where
  shard_id : String
  size : Nat
  instances : List (String × List String)
deriving DecidableEq

/-- First-occurrence deduplication, the order in which a grouping map would
first see each shard id.  (The Go helpers iterate a map, whose order is
arbitrary; the read path sorts immediately afterwards, so any grouping order
is faithful.) -/
def dedupFirstAux (seen : List String) : List String → List String
  | [] => []
  | x :: xs =>
      if seen.contains x then dedupFirstAux seen xs
      else x :: dedupFirstAux (x :: seen) xs

/-- Modelled from the spec: `getDatabaseClusterShardInstances` and
`flattenDatabaseClusterShards` (not under `src/`) group the remote instance
list by shard id; each group's `size` is the number of its instances. -/
def groupShards (insts : List ClusterInstanceResp) : List FlattenedShard :=
  (dedupFirstAux [] (insts.map (·.shardID))).map fun sid =>
    let group := insts.filter (fun inst => inst.shardID == sid)
    ⟨sid, group.length, group.map fun i => (i.id, i.ip)⟩

/-- Go's `<` on strings (byte-wise lexicographic order), at the character
level. -/
def charsLt : List Char → List Char → Bool
  | [], [] => false
  | [], _ :: _ => true
  | _ :: _, [] => false
  | a :: as, b :: bs => if a < b then true else if b < a then false else charsLt as bs

/-- Insertion step of the sort at lines 978-980 (`sort.Slice` with
`shard_id <`).  Grouped shard ids are distinct, so the sorted result is the
unique ascending arrangement whatever sorting algorithm is used. -/
def insertByShardID (x : FlattenedShard) : List FlattenedShard → List FlattenedShard
  | [] => [x]
  | y :: ys =>
      if charsLt x.shard_id.data y.shard_id.data then x :: y :: ys
      else y :: insertByShardID x ys

/-- The sort at lines 978-980: ascending by `shard_id`. -/
def sortByShardID : List FlattenedShard → List FlattenedShard
  | [] => []
  | x :: xs => insertByShardID x (sortByShardID xs)

/-- The `OuterLoop` partition of the read path (lines 986-998): walking the
(sorted) flattened shards, those whose id occurs in the locally declared shard
list go to `shards`, the rest to `newShards`, and the two are concatenated.
The subsequent loop (lines 999-1026) only overlays `availability_zone`,
`network` and `volume_type` in place; it changes neither ids nor sizes nor
order, so it is not modelled. -/
def reconcileShards (remote : List ClusterInstanceResp) (declaredIDs : List String) :
    List FlattenedShard :=
  let flattenedShards := sortByShardID (groupShards remote)
  let matched := flattenedShards.filter fun f => declaredIDs.contains f.shard_id
  let newShards := flattenedShards.filter fun f => !(declaredIDs.contains f.shard_id)
  matched ++ newShards

/-! ## Update path: the Change-Driven Update Sequencer (lines 1034-1133) -/

/-- The update actions the sequencer can emit.  Shard-scoped actions carry the
loop index `i` (used by the code to address `shard.<i>.<field>`) and the
shard id passed to the action helper. -/
inductive UpdateAction where
  | attachConfiguration
  | updateDiskAutoexpand
  | updateWalDiskAutoexpand
  | applyCapabilities
  | updateCloudMonitoring
  | resizeVolume (i : Nat) (shardID : String)
  | resizeWalVolume (i : Nat) (shardID : String)
  | resizeFlavor (i : Nat) (shardID : String)
  | grow (i : Nat) (shardID : String)
  | shrink (i : Nat) (shardID : String)
deriving DecidableEq

/-- The shard id the code hands to `databaseClusterWithShardsUpdateProcessError`
for an action: `""` for cluster-scoped actions (lines 1060-1089), the shard's
id for shard-scoped ones (lines 1101-1127). -/
def UpdateAction.shardOf : UpdateAction → String
  | .resizeVolume _ sid => sid
  | .resizeWalVolume _ sid => sid
  | .resizeFlavor _ sid => sid
  | .grow _ sid => sid
  | .shrink _ sid => sid
  | _ => ""

/-- Position of an action in the fixed emission order of the update path:
the five top-level checks (lines 1057-1090) in source order, then per shard
`i` the four per-shard checks (lines 1098-1129) in source order. -/
def UpdateAction.priority : UpdateAction → Nat
  | .attachConfiguration => 0
  | .updateDiskAutoexpand => 1
  | .updateWalDiskAutoexpand => 2
  | .applyCapabilities => 3
  | .updateCloudMonitoring => 4
  | .resizeVolume i _ => 5 + 5 * i
  | .resizeWalVolume i _ => 6 + 5 * i
  | .resizeFlavor i _ => 7 + 5 * i
  | .grow i _ => 8 + 5 * i
  | .shrink i _ => 9 + 5 * i

/-- Terraform zero values for a shard: what `d.GetChange` reports as the old
value when the prior state has no shard at that index. -/
def defaultShardSpec : ShardSpec :=
  { shard_id := ""
    size := 0
    shrink_options := []
    flavor_id := ""
    volume_size := 0
    volume_type := ""
    wal_volume := none
    network := []
    availability_zone := "" }

/-- Per-shard change detection of one iteration of the update loop
(lines 1093-1130): `d.HasChange("shard.<i>.<field>")` compares the prior
state's shard at index `i` (zero values when absent) with the desired shard,
field by field; `shrink_options` is never consulted (and its schema
`DiffSuppressFunc`, lines 667-669, suppresses its diffs anyway). -/
def shardUpdateActions (prevShards : List ShardSpec) (i : Nat) (s : ShardSpec) :
    List UpdateAction :=
  let old := (prevShards.get? i).getD defaultShardSpec
  (if old.volume_size ≠ s.volume_size then [UpdateAction.resizeVolume i s.shard_id] else [])
  ++ (if old.wal_volume ≠ s.wal_volume then [UpdateAction.resizeWalVolume i s.shard_id] else [])
  ++ (if old.flavor_id ≠ s.flavor_id then [UpdateAction.resizeFlavor i s.shard_id] else [])
  ++ (if old.size ≠ s.size then
        (if s.size - old.size > 0 then [UpdateAction.grow i s.shard_id]
         else if s.size - old.size < 0 then [UpdateAction.shrink i s.shard_id]
         else [])
      else [])

/-- The shard loop of the update path (lines 1092-1130), iterating the desired
shard list with its index. -/
def shardsUpdatePlan (prevShards : List ShardSpec) (i : Nat) :
    List ShardSpec → List UpdateAction
  | [] => []
  | s :: rest => shardUpdateActions prevShards i s ++ shardsUpdatePlan prevShards (i + 1) rest

/-- The full action sequence of `resourceDatabaseClusterWithShardsUpdate`
(lines 1057-1130): one action per changed top-level field in source order,
then the per-shard actions. -/
def clusterUpdatePlan (prev desired : ClusterSpec) : List UpdateAction :=
  (if prev.configuration_id ≠ desired.configuration_id then [UpdateAction.attachConfiguration] else [])
  ++ (if prev.disk_autoexpand ≠ desired.disk_autoexpand then [UpdateAction.updateDiskAutoexpand] else [])
  ++ (if prev.wal_disk_autoexpand ≠ desired.wal_disk_autoexpand then [UpdateAction.updateWalDiskAutoexpand] else [])
  ++ (if prev.capabilities ≠ desired.capabilities then [UpdateAction.applyCapabilities] else [])
  ++ (if prev.cloud_monitoring_enabled ≠ desired.cloud_monitoring_enabled then [UpdateAction.updateCloudMonitoring] else [])
  ++ shardsUpdatePlan prev.shards 0 desired.shards

/-- The schema `DiffSuppressFunc` of `shrink_options` (lines 667-669):
unconditionally `true`, so a change of `shrink_options` alone never produces
a diff. -/
def shrinkOptionsDiffSuppress (_k _old _new : String) : Bool :=
  true

/-! ## Update error processing (lines 1164-1216) -/

/-- The sentinel error identities matched by the `switch` in
`databaseClusterWithShardsUpdateProcessError` (lines 1171-1212).  Constructor
names follow the Go variables (including the `Capabitilies` typo of
`errDBClusterActionApplyCapabitilies`). -/
inductive DBErrSentinel where
  | errDBClusterNotFound
  | errDBClusterShardNotFound
  | errDBClusterUpdateWait
  | errDBClusterUpdateDiskAutoexpand
  | errDBClusterUpdateDiskAutoexpandExtract
  | errDBClusterUpdateWalDiskAutoexpand
  | errDBClusterUpdateWalDiskAutoexpandExtract
  | errDBClusterUpdateCloudMonitoring
  | errDBClusterActionUpdateConfiguration
  | errDBClusterActionApplyCapabitilies
  | errDBClusterActionApplyCapabilitiesExtract
  | errDBClusterActionResizeWalVolumeExtract
  | errDBClusterActionGrow
  | errDBClusterActionShrink
  | errDBClusterActionShrinkWrongOptions
  | errDBClusterActionShrinkInstancesExtract
  | errDBClusterActionResizeVolume
  | errDBClusterActionResizeWalVolume
  | errDBClusterActionResizeFlavor
deriving DecidableEq

/-- Which sentinels produce a message naming the shard id (lines 1196-1211). -/
def DBErrSentinel.shardScoped : DBErrSentinel → Bool
  | .errDBClusterActionResizeWalVolumeExtract => true
  | .errDBClusterActionGrow => true
  | .errDBClusterActionShrink => true
  | .errDBClusterActionShrinkWrongOptions => true
  | .errDBClusterActionShrinkInstancesExtract => true
  | .errDBClusterActionResizeVolume => true
  | .errDBClusterActionResizeWalVolume => true
  | .errDBClusterActionResizeFlavor => true
  | _ => false

/-- An error returned by an update action helper, as
`databaseClusterWithShardsUpdateProcessError` sees it.  Modelled from the
spec (the helpers are not under `src/`): a helper either returns a sentinel
directly (`wrapText = none`) or wraps it via `fmt.Errorf` so that `Error()`
is the wrapper text followed by the base error's text; `base = none` stands
for a non-sentinel error whose text is `baseText`.  Texts are `List Char`
because the processing below operates on characters. -/
structure UpdateErr where
  base : Option DBErrSentinel
  baseText : List Char
  wrapText : Option (List Char)
deriving DecidableEq

/-- `err.Error()`: the wrapper text (if any) followed by the base text. -/
def UpdateErr.fullText (e : UpdateErr) : List Char :=
  match e.wrapText with
  | some w => w ++ e.baseText
  | none => e.baseText

/-- `errors.Unwrap` followed by the identity `switch` (lines 1165-1168): the
base error identity the switch matches on. -/
def UpdateErr.baseTextOf (e : UpdateErr) : List Char :=
  e.baseText

/-- The replacement messages of the `switch` (lines 1171-1212), with the
format verbs spliced in (`%s` order as in the source; the `fron` typo at
line 1182 is the source's). -/
def sentinelMsg (s : DBErrSentinel) (clusterID shardID : List Char) : List Char :=
  match s with
  | .errDBClusterNotFound =>
      "error retrieving vkcs_db_cluster_with_shards ".data ++ clusterID
  | .errDBClusterShardNotFound =>
      "unable to extract shard from vkcs_db_cluster_with_shards ".data ++ clusterID
  | .errDBClusterUpdateWait =>
      "error waiting for vkcs_db_cluster_with_shards ".data ++ clusterID ++ " to become ready".data
  | .errDBClusterUpdateDiskAutoexpand =>
      "error updating disk_autoexpand for vkcs_db_cluster_with_shards ".data ++ clusterID
  | .errDBClusterUpdateDiskAutoexpandExtract =>
      "unable to determine disk_autoexpand fron vkcs_db_cluster_with_shards ".data ++ clusterID
  | .errDBClusterUpdateWalDiskAutoexpand =>
      "error updating wal_disk_autoexpand for vkcs_db_cluster_with_shards ".data ++ clusterID
  | .errDBClusterUpdateWalDiskAutoexpandExtract =>
      "unable to determine wal_disk_autoexpand from vkcs_db_cluster_with_shards ".data ++ clusterID
  | .errDBClusterUpdateCloudMonitoring =>
      "error updating cloud_monitoring_enabled for vkcs_db_cluster_with_shards ".data ++ clusterID
  | .errDBClusterActionUpdateConfiguration =>
      "error updating configuration for vkcs_db_cluster_with_shards ".data ++ clusterID
  | .errDBClusterActionApplyCapabitilies =>
      "error updating capabilities for vkcs_db_cluster_with_shards ".data ++ clusterID
  | .errDBClusterActionApplyCapabilitiesExtract =>
      "error extracting capabilities for vkcs_db_cluster_with_shards ".data ++ clusterID
  | .errDBClusterActionResizeWalVolumeExtract =>
      "unable to determine wal_volume from shard ".data ++ shardID ++ " of vkcs_db_cluster_with_shards ".data ++ clusterID
  | .errDBClusterActionGrow =>
      "error growing shard ".data ++ shardID ++ " of vkcs_db_cluster_with_shards ".data ++ clusterID
  | .errDBClusterActionShrink =>
      "error shrinking shard ".data ++ shardID ++ " of vkcs_db_cluster_with_shards ".data ++ clusterID
  | .errDBClusterActionShrinkWrongOptions =>
      "invalid shrink options for shard ".data ++ shardID ++ " of vkcs_db_cluster_with_shards ".data ++ clusterID
  | .errDBClusterActionShrinkInstancesExtract =>
      "error determining instances to shrink shard ".data ++ shardID ++ " of vkcs_db_cluster_with_shards ".data ++ clusterID
  | .errDBClusterActionResizeVolume =>
      "error resizing volume for shard ".data ++ shardID ++ " of vkcs_db_cluster_with_shards ".data ++ clusterID
  | .errDBClusterActionResizeWalVolume =>
      "error resizing wal_volume for shard ".data ++ shardID ++ " of vkcs_db_cluster_with_shards ".data ++ clusterID
  | .errDBClusterActionResizeFlavor =>
      "error changing flavor for shard ".data ++ shardID ++ " of vkcs_db_cluster_with_shards ".data ++ clusterID

/-- Prefix test on character lists (Go `strings.HasPrefix` at the character
level, used to embed `strings.Replace`). -/
def charsPrefix : List Char → List Char → Bool
  | [], _ => true
  | _ :: _, [] => false
  | p :: ps, c :: cs => p == c && charsPrefix ps cs

/-- `strings.Replace(hay, pat, new, 1)` (line 1214): replace the first
occurrence of `pat` in `hay` by `new`; `hay` unchanged when `pat` does not
occur. -/
def replaceFirst (pat new : List Char) : List Char → List Char
  | [] => if charsPrefix pat [] then new else []
  | c :: rest =>
      if charsPrefix pat (c :: rest) then new ++ List.drop pat.length (c :: rest)
      else c :: replaceFirst pat new rest

/-- `databaseClusterWithShardsUpdateProcessError` (lines 1164-1216): take the
unwrapped base error, compute the replacement message for known sentinels
(default: the base text unchanged), and splice it into the full error text in
place of the first occurrence of the base text. -/
def databaseClusterWithShardsUpdateProcessError
    (e : UpdateErr) (clusterID shardID : List Char) : List Char :=
  let newErrMsg :=
    match e.base with
    | some s => sentinelMsg s clusterID shardID
    | none => e.baseTextOf
  replaceFirst e.baseTextOf newErrMsg e.fullText

/-- Execution of the planned actions (lines 1057-1130): each action runs in
source order; the first failing action's error is turned into the single
diagnostic via `databaseClusterWithShardsUpdateProcessError` and the remaining
actions are abandoned.  `res` abstracts the action helpers (not under `src/`,
modelled from the spec as returning `none` on success or their error);
the second component is the list of actions actually attempted. -/
def execPlanTrace (res : UpdateAction → Option UpdateErr) (clusterID : List Char) :
    List UpdateAction → Option (List Char) × List UpdateAction
  | [] => (none, [])
  | a :: rest =>
      match res a with
      | some e =>
          (some (databaseClusterWithShardsUpdateProcessError e clusterID a.shardOf.data), [a])
      | none =>
          let r := execPlanTrace res clusterID rest
          (r.1, a :: r.2)

/-- `resourceDatabaseClusterWithShardsUpdate` (lines 1034-1133) as the plan of
its change checks executed until the first failure. -/
def resourceDatabaseClusterWithShardsUpdate
    (res : UpdateAction → Option UpdateErr) (clusterID : List Char)
    (prev desired : ClusterSpec) : Option (List Char) × List UpdateAction :=
  execPlanTrace res clusterID (clusterUpdatePlan prev desired)

/-! ## Shrink action, poll configurations, datastore validation -/

/-- A remote mutation issued by an action helper. -/
inductive RemoteCall where
  | shrinkShard (instanceIDs : List String)
deriving DecidableEq

/-- A shard instance with its remote-reported leader role. -/
structure ShrinkInstance where
  id : String
  isLeader : Bool
deriving DecidableEq

/-- Modelled from the spec: `databaseClusterActionShrink` (not under `src/`).
Per §4.5, removing `delta` instances: when `shrink_options` is supplied it
must list exactly `delta` instance ids currently in the shard, otherwise the
helper fails with `errDBClusterActionShrinkWrongOptions` before any remote
call; when omitted, the first non-leader instances are selected. -/
def databaseClusterActionShrink (shrinkOptions : List String) (delta : Nat)
    (shardInstances : List ShrinkInstance) : Except DBErrSentinel (List RemoteCall) :=
  if shrinkOptions.isEmpty then
    .ok [RemoteCall.shrinkShard
      (((shardInstances.filter fun inst => !inst.isLeader).take delta).map (·.id))]
  else if shrinkOptions.length = delta
      ∧ shrinkOptions.all (fun o => shardInstances.any fun inst => inst.id == o) then
    .ok [RemoteCall.shrinkShard shrinkOptions]
  else
    .error DBErrSentinel.errDBClusterActionShrinkWrongOptions

/-- Cluster statuses used in the poll configurations. -/
inductive DBClusterStatus where
  | build
  | active
  | deleting
  | deleted
deriving DecidableEq

/-- Caller-supplied timeouts: the resource's `Timeouts` block declares exactly
a create and a delete budget (lines 454-457). -/
structure ResourceTimeouts where
  create : Nat
  delete : Nat
deriving DecidableEq

/-- `resource.StateChangeConf`: pending and target statuses plus the timing
policy. -/
structure StateChangeConf where
  pending : List DBClusterStatus
  target : List DBClusterStatus
  timeout : Nat
deriving DecidableEq

/-- The create wait (lines 916-923): pending `BUILD`, target `ACTIVE`,
timeout `d.Timeout(schema.TimeoutCreate)`. -/
def createWaitConf (t : ResourceTimeouts) : StateChangeConf :=
  { pending := [DBClusterStatus.build]
    target := [DBClusterStatus.active]
    timeout := t.create }

/-- The wait configuration built for every update action (lines 1042-1049):
pending `BUILD`, target `ACTIVE`, and — as written at line 1046 — timeout
`d.Timeout(schema.TimeoutCreate)`. -/
def updateWaitConf (t : ResourceTimeouts) : StateChangeConf :=
  { pending := [DBClusterStatus.build]
    target := [DBClusterStatus.active]
    timeout := t.create }

/-- The delete wait (lines 1147-1154): pending `ACTIVE`/`DELETING`, target
`DELETED`, timeout `d.Timeout(schema.TimeoutDelete)`. -/
def deleteWaitConf (t : ResourceTimeouts) : StateChangeConf :=
  { pending := [DBClusterStatus.active, DBClusterStatus.deleting]
    target := [DBClusterStatus.deleted]
    timeout := t.delete }

/-- The datastore type accepted by the resource.  The constant `Clickhouse`
is declared elsewhere in the repository; its value is pinned by the schema
description at line 499: "Type of the datastore must be \x22clickhouse\x22." -/
def clickhouseType : String :=
  "clickhouse"

/-- The `ValidateFunc` of `datastore.type` (lines 492-498): any value other
than clickhouse appends a validation error. -/
def datastoreTypeValidateErrs (v : String) : List String :=
  if v ≠ clickhouseType then
    ["datastore type must be [clickhouse], got: " ++ v]
  else []

/-! ## Helper lemmas: the create path in closed form -/

/-- The per-shard descriptor with the keypair filled in: the value every
instance of that shard receives. -/
def shardDescriptor (kp : String) (s : ShardSpec) : InstanceCreateOpts :=
  { volume := some ⟨s.volume_size, s.volume_type⟩
    nics := (extractDatabaseNetworks s.network).1
    securityGroups := (extractDatabaseNetworks s.network).2
    availabilityZone := s.availability_zone
    flavorRef := s.flavor_id
    shardID := s.shard_id
    walvolume := s.wal_volume
    keypair := kp }

/-- Closed form of the flat instance list: shard by shard, `size` copies of
the shard's descriptor. -/
def flatInstances (kp : String) : List ShardSpec → List InstanceCreateOpts
  | [] => []
  | s :: rest => List.replicate s.size.toNat (shardDescriptor kp s) ++ flatInstances kp rest

/-- Closed form of the whole `createOpts` record built by the create path. -/
def createOptsPure (spec : ClusterSpec) : ClusterCreateOpts :=
  { name := spec.name
    floatingIPEnabled := spec.floating_ip_enabled
    cloudMonitoringEnabled := spec.cloud_monitoring_enabled
    restorePoint := spec.restore_point
    datastore := spec.datastore
    autoExpand :=
      match spec.disk_autoexpand with
      | some a => if a.autoexpand then 1 else 0
      | none => 0
    maxDiskSize :=
      match spec.disk_autoexpand with
      | some a => a.max_disk_size
      | none => 0
    walAutoExpand :=
      match spec.wal_disk_autoexpand with
      | some a => if a.autoexpand then 1 else 0
      | none => 0
    walMaxDiskSize :=
      match spec.wal_disk_autoexpand with
      | some a => a.max_disk_size
      | none => 0
    instances := flatInstances spec.keypair spec.shards
    capabilities := spec.capabilities }

theorem shardInstanceCreateOpts_eq (s : ShardSpec) :
    shardInstanceCreateOpts s = Except.ok (shardDescriptor "" s) := by
  cases h : s.wal_volume <;>
    simp [shardInstanceCreateOpts, extractDatabaseWalVolume, shardDescriptor, h] <;> rfl

theorem mapM_loop_shardInstanceCreateOpts (l : List ShardSpec)
    (acc : List InstanceCreateOpts) :
    List.mapM.loop shardInstanceCreateOpts l acc
      = Except.ok (acc.reverse ++ l.map (shardDescriptor "")) := by
  induction l generalizing acc with
  | nil => simp [List.mapM.loop]; rfl
  | cons s rest ih =>
      simp [List.mapM.loop, shardInstanceCreateOpts_eq, ih]
      rfl

theorem mapM_shardInstanceCreateOpts (l : List ShardSpec) :
    l.mapM shardInstanceCreateOpts = Except.ok (l.map (shardDescriptor "")) := by
  show List.mapM.loop shardInstanceCreateOpts l [] = _
  simp [mapM_loop_shardInstanceCreateOpts]

theorem setKeypair_shardDescriptor (kp : String) (l : List ShardSpec) :
    setKeypair kp (l.map (shardDescriptor "")) = l.map (shardDescriptor kp) := by
  simp only [setKeypair, List.map_map]
  rfl

theorem expandShardInstances_zip (kp : String) (l : List ShardSpec)
    (h : ∀ s ∈ l, 0 ≤ s.size) :
    expandShardInstances ((l.map (shardDescriptor kp)).zip (l.map (·.size)))
      = some (flatInstances kp l) := by
  induction l with
  | nil => rfl
  | cons s rest ih =>
      have hs : 0 ≤ s.size := h s (List.mem_cons_self s rest)
      have ih2 := ih fun x hx => h x (List.mem_cons_of_mem s hx)
      rw [List.zip_map'] at ih2 ⊢
      simp only [List.map_cons, expandShardInstances, flatInstances, ih2,
        if_neg (by omega : ¬s.size < 0), Option.map_some']

theorem expandShardInstances_zip_panic (kp : String) (l : List ShardSpec)
    (h : ∃ s ∈ l, s.size < 0) :
    expandShardInstances ((l.map (shardDescriptor kp)).zip (l.map (·.size)))
      = none := by
  induction l with
  | nil => simp at h
  | cons s rest ih =>
      rw [List.zip_map'] at ih ⊢
      by_cases hs : s.size < 0
      · simp only [List.map_cons, expandShardInstances, if_pos hs]
      · have hrest : ∃ x ∈ rest, x.size < 0 := by
          rcases h with ⟨x, hx, hneg⟩
          rcases List.mem_cons.mp hx with rfl | hx
          · exact absurd hneg hs
          · exact ⟨x, hx, hneg⟩
        simp only [List.map_cons, expandShardInstances, if_neg hs, ih hrest,
          Option.map_none']

/-- The create path in closed form: on typed input with nonnegative declared
sizes (the domain where the Go flatten loop does not panic) it succeeds and
its `createOpts` is `createOptsPure`. -/
theorem resourceDatabaseClusterWithShardsCreateOpts_eq (spec : ClusterSpec)
    (h : ∀ s ∈ spec.shards, 0 ≤ s.size) :
    resourceDatabaseClusterWithShardsCreateOpts spec = Except.ok (createOptsPure spec) := by
  rcases spec with ⟨name, fie, cme, rp, ds, dae, wdae, kp, cid, caps, shards⟩
  have hz := expandShardInstances_zip kp shards (by simpa using h)
  cases rp <;> cases ds <;> cases dae <;> cases wdae <;> cases caps <;>
    (simp [resourceDatabaseClusterWithShardsCreateOpts, createOptsPure,
      extractDatabaseRestorePoint, extractDatabaseDatastore, extractDatabaseAutoExpand,
      extractDatabaseCapabilities, mapM_loop_shardInstanceCreateOpts,
      setKeypair_shardDescriptor, hz, Except.map]
     try rfl)

/-- The create path panics (before any remote call, but not with any
diagnostic) whenever some declared shard size is negative. -/
theorem resourceDatabaseClusterWithShardsCreateOpts_panic (spec : ClusterSpec)
    (h : ∃ s ∈ spec.shards, s.size < 0) :
    resourceDatabaseClusterWithShardsCreateOpts spec
      = Except.error CreateFailure.panic := by
  rcases spec with ⟨name, fie, cme, rp, ds, dae, wdae, kp, cid, caps, shards⟩
  have hz := expandShardInstances_zip_panic kp shards (by simpa using h)
  cases rp <;> cases ds <;> cases dae <;> cases wdae <;> cases caps <;>
    (simp [resourceDatabaseClusterWithShardsCreateOpts,
      extractDatabaseRestorePoint, extractDatabaseDatastore, extractDatabaseAutoExpand,
      extractDatabaseCapabilities, mapM_loop_shardInstanceCreateOpts,
      setKeypair_shardDescriptor, hz, Except.map]
     try rfl)

theorem flatInstances_length (kp : String) (l : List ShardSpec) :
    (flatInstances kp l).length = totalDeclaredSize l := by
  induction l with
  | nil => rfl
  | cons s rest ih =>
      simp [flatInstances, totalDeclaredSize, ih]

theorem totalDeclaredSize_eq_sum (l : List ShardSpec) (h : ∀ s ∈ l, 1 ≤ s.size) :
    (totalDeclaredSize l : Int) = (l.map (·.size)).sum := by
  induction l with
  | nil => rfl
  | cons s rest ih =>
      have hs : 1 ≤ s.size := h s (List.mem_cons_self s rest)
      have ih2 := ih fun x hx => h x (List.mem_cons_of_mem s hx)
      simp [totalDeclaredSize] at ih2 ⊢
      omega

theorem flatInstances_segment (kp : String) :
    ∀ (l : List ShardSpec) (i : Nat) (s : ShardSpec), l.get? i = some s →
      ((flatInstances kp l).drop (shardOffset l i)).take s.size.toNat
        = List.replicate s.size.toNat (shardDescriptor kp s)
  | [], i, s, h => by cases h
  | s0 :: rest, 0, s, h => by
      cases h
      simp [flatInstances, shardOffset, totalDeclaredSize]
  | s0 :: rest, i + 1, s, h => by
      have ih := flatInstances_segment kp rest i s h
      have hoff : shardOffset (s0 :: rest) (i + 1)
          = s0.size.toNat + shardOffset rest i := by
        simp [shardOffset, totalDeclaredSize]
      rw [hoff]
      have hdrop : (flatInstances kp (s0 :: rest)).drop (s0.size.toNat + shardOffset rest i)
          = (flatInstances kp rest).drop (shardOffset rest i) := by
        show (List.replicate s0.size.toNat (shardDescriptor kp s0)
            ++ flatInstances kp rest).drop (s0.size.toNat + shardOffset rest i)
          = (flatInstances kp rest).drop (shardOffset rest i)
        rw [show s0.size.toNat + shardOffset rest i
              = (List.replicate s0.size.toNat (shardDescriptor kp s0)).length
                + shardOffset rest i from by rw [List.length_replicate]]
        rw [List.drop_append]
      rw [hdrop, ih]

/-! ## Claim C1 -/

/-- C1: for every cluster spec whose shards have their declared sizes
`k1..kn` (each at least 1, the data-model invariant), the create path
produces exactly `k1+...+kn` instance-creation descriptors, grouped
contiguously shard by shard in declared order, and every descriptor of a
shard carries that shard's flavor, volume, wal volume, network, availability
zone, shard id and the cluster-wide keypair. -/
theorem specTranslator_grouped_instances (spec : ClusterSpec) (opts : ClusterCreateOpts)
    (hok : resourceDatabaseClusterWithShardsCreateOpts spec = Except.ok opts)
    (hpos : ∀ s ∈ spec.shards, 1 ≤ s.size) :
    ((opts.instances.length : Int) = (spec.shards.map (·.size)).sum)
    ∧ (∀ (i : Nat) (s : ShardSpec), spec.shards.get? i = some s →
        (opts.instances.drop (shardOffset spec.shards i)).take s.size.toNat
          = List.replicate s.size.toNat (shardDescriptor spec.keypair s))
    ∧ (∀ (kp : String) (s : ShardSpec),
        (shardDescriptor kp s).flavorRef = s.flavor_id
        ∧ (shardDescriptor kp s).volume = some ⟨s.volume_size, s.volume_type⟩
        ∧ (shardDescriptor kp s).walvolume = s.wal_volume
        ∧ (shardDescriptor kp s).nics = s.network
        ∧ (shardDescriptor kp s).availabilityZone = s.availability_zone
        ∧ (shardDescriptor kp s).shardID = s.shard_id
        ∧ (shardDescriptor kp s).keypair = kp) := by
  have hopts : opts = createOptsPure spec := by
    have heq := resourceDatabaseClusterWithShardsCreateOpts_eq spec
      (fun s hs => by have := hpos s hs; omega)
    rw [hok] at heq
    exact Except.ok.inj heq
  subst hopts
  refine ⟨?_, ?_, ?_⟩
  · show ((flatInstances spec.keypair spec.shards).length : Int) = _
    rw [flatInstances_length, totalDeclaredSize_eq_sum spec.shards hpos]
  · intro i s hi
    exact flatInstances_segment spec.keypair spec.shards i s hi
  · intro kp s
    exact ⟨rfl, rfl, rfl, rfl, rfl, rfl, rfl⟩

/-- Concrete spec used only by C1's witness: two shards of sizes 2 and 1. -/
def c1shardA : ShardSpec :=
  { shard_id := "shard-a"
    size := 2
    shrink_options := []
    flavor_id := "flavor-1"
    volume_size := 10
    volume_type := "ceph"
    wal_volume := some ⟨5, "ceph"⟩
    network := [⟨"net-1", "", "sub-1", ["sg-1"]⟩]
    availability_zone := "az-1" }

/-- Concrete spec used only by C1's witness. -/
def c1shardB : ShardSpec :=
  { shard_id := "shard-b"
    size := 1
    shrink_options := []
    flavor_id := "flavor-2"
    volume_size := 20
    volume_type := "ssd"
    wal_volume := none
    network := []
    availability_zone := "az-2" }

/-- Concrete spec used only by C1's witness. -/
def c1spec : ClusterSpec :=
  { name := "c1"
    floating_ip_enabled := false
    cloud_monitoring_enabled := false
    restore_point := none
    datastore := some ⟨"23.8", "clickhouse"⟩
    disk_autoexpand := none
    wal_disk_autoexpand := none
    keypair := "kp-1"
    configuration_id := ""
    capabilities := []
    shards := [c1shardA, c1shardB] }

/-- Witness for C1 at a concrete two-shard spec. -/
theorem specTranslator_grouped_instances_witness :
    (((createOptsPure c1spec).instances.length : Int) = 3)
    ∧ ((createOptsPure c1spec).instances.drop (shardOffset c1spec.shards 1)).take 1
        = List.replicate 1 (shardDescriptor "kp-1" c1shardB) := by
  have h := specTranslator_grouped_instances c1spec (createOptsPure c1spec)
    (resourceDatabaseClusterWithShardsCreateOpts_eq c1spec (by decide))
    (by intro s hs; fin_cases hs <;> decide)
  refine ⟨h.1.trans (by decide), ?_⟩
  have h2 := h.2.1 1 c1shardB (by decide)
  simpa using h2

/-! ## Claim C7 -/

/-- Concrete spec used only by C7: a shard of size 0, no datastore, and a
volume type given while the volume size is unset (zero value). -/
def c7spec : ClusterSpec :=
  { name := "c7"
    floating_ip_enabled := false
    cloud_monitoring_enabled := false
    restore_point := none
    datastore := none
    disk_autoexpand := none
    wal_disk_autoexpand := none
    keypair := ""
    configuration_id := ""
    capabilities := []
    shards := [{ shard_id := "s0"
                 size := 0
                 shrink_options := []
                 flavor_id := "flavor-1"
                 volume_size := 0
                 volume_type := "ceph"
                 wal_volume := none
                 network := []
                 availability_zone := "" }] }

/-- Counterexample to C7: on a spec triggering all three conditions the claim
says must fail (shard size `0 < 1`, datastore unset, volume type given with
volume size unset), the create path succeeds: it returns `ok`, emitting zero
descriptors for the size-0 shard and omitting the datastore, with no
validation error of any kind. -/
theorem createPath_no_validation_eval :
    (resourceDatabaseClusterWithShardsCreateOpts c7spec).isOk = true
    ∧ (resourceDatabaseClusterWithShardsCreateOpts c7spec).toOption.map (·.instances)
        = some []
    ∧ (resourceDatabaseClusterWithShardsCreateOpts c7spec).toOption.map (·.datastore)
        = some none := by
  decide

/-- Spec used only by C7's witness: one shard with a negative declared size,
on which the Go flatten loop panics. -/
def c7negSpec : ClusterSpec :=
  { name := "c7neg"
    floating_ip_enabled := false
    cloud_monitoring_enabled := false
    restore_point := none
    datastore := none
    disk_autoexpand := none
    wal_disk_autoexpand := none
    keypair := ""
    configuration_id := ""
    capabilities := []
    shards := [{ shard_id := "s0"
                 size := -1
                 shrink_options := []
                 flavor_id := "flavor-1"
                 volume_size := 10
                 volume_type := "ceph"
                 wal_volume := none
                 network := []
                 availability_zone := "" }] }

/-- C7 (amended): the create path performs none of the claimed validations
and raises no validation error before the remote call: whenever every
declared shard size is nonnegative the translation succeeds outright — in
particular a size-0 shard is accepted and contributes no descriptors, an
unset datastore is simply omitted, and a volume type with the volume size
unset (zero) is passed through — while a negative declared size is a runtime
panic in the flatten loop (lines 882-889), not a validation error. -/
theorem createPath_no_validation_error :
    (∀ spec : ClusterSpec, (∀ s ∈ spec.shards, 0 ≤ s.size) →
      (resourceDatabaseClusterWithShardsCreateOpts spec).isOk = true)
    ∧ (∀ spec : ClusterSpec, (∃ s ∈ spec.shards, s.size < 0) →
      resourceDatabaseClusterWithShardsCreateOpts spec
        = Except.error CreateFailure.panic) := by
  constructor
  · intro spec h
    rw [resourceDatabaseClusterWithShardsCreateOpts_eq spec h]
    rfl
  · intro spec h
    exact resourceDatabaseClusterWithShardsCreateOpts_panic spec h

/-- Witness for C7's amended claim: the size-0 spec translates successfully;
the size-(-1) spec reaches the panic, not a validation diagnostic. -/
theorem createPath_no_validation_error_witness :
    (resourceDatabaseClusterWithShardsCreateOpts c7spec).isOk = true
    ∧ resourceDatabaseClusterWithShardsCreateOpts c7negSpec
        = Except.error CreateFailure.panic :=
  ⟨createPath_no_validation_error.1 c7spec (by decide),
   createPath_no_validation_error.2 c7negSpec (by decide)⟩

/-! ## Claim C10 -/

/-- C10: the schema `ValidateFunc` of `datastore.type` rejects every value
other than clickhouse with a validation error (the framework runs it before
any remote call is possible), and accepts exactly clickhouse. -/
theorem datastoreType_validation_clickhouse_only (v : String) :
    datastoreTypeValidateErrs v = [] ↔ v = "clickhouse" := by
  unfold datastoreTypeValidateErrs clickhouseType
  by_cases h : v = "clickhouse" <;> simp [h]

/-! ## Claim C8 -/

/-- Counterexample to C8: with create budget 10 and delete budget 20, the
wait configuration built for update actions carries timeout 10 — the create
budget itself (line 1046 uses `schema.TimeoutCreate`), not a distinct
generic-update budget. -/
theorem updateWait_reuses_create_timeout_eval :
    (updateWaitConf ⟨10, 20⟩).timeout = 10
    ∧ (createWaitConf ⟨10, 20⟩).timeout = 10
    ∧ (updateWaitConf ⟨10, 20⟩).timeout = (createWaitConf ⟨10, 20⟩).timeout := by
  decide

/-- C8 (amended): the create wait polls under the caller-supplied create
budget, the delete wait under the delete budget, and every update action's
completion wait reuses the create budget (the update path builds its poll
configuration with `schema.TimeoutCreate`); there is no distinct
generic-update budget. -/
theorem waitConf_timeout_budgets (t : ResourceTimeouts) :
    (createWaitConf t).timeout = t.create
    ∧ (deleteWaitConf t).timeout = t.delete
    ∧ (updateWaitConf t).timeout = t.create := by
  exact ⟨rfl, rfl, rfl⟩

/-! ## Helper lemmas: the reconciler -/

theorem dedupFirstAux_cons_mem (seen : List String) (y : String) (ys : List String)
    (h : seen.contains y = true) :
    dedupFirstAux seen (y :: ys) = dedupFirstAux seen ys := by
  rw [dedupFirstAux, if_pos h]

theorem dedupFirstAux_cons_not_mem (seen : List String) (y : String) (ys : List String)
    (h : seen.contains y = false) :
    dedupFirstAux seen (y :: ys) = y :: dedupFirstAux (y :: seen) ys := by
  rw [dedupFirstAux, if_neg (by rw [h]; simp)]

theorem mem_dedupFirstAux (x : String) :
    ∀ (l seen : List String),
      x ∈ dedupFirstAux seen l ↔ x ∈ l ∧ x ∉ seen
  | [], seen => by simp [dedupFirstAux]
  | y :: ys, seen => by
      by_cases h : seen.contains y
      · rw [dedupFirstAux_cons_mem seen y ys h, mem_dedupFirstAux x ys seen]
        have hy : y ∈ seen := by simpa using h
        constructor
        · rintro ⟨hx, hc⟩
          exact ⟨List.mem_cons_of_mem y hx, hc⟩
        · rintro ⟨hx, hc⟩
          rcases List.mem_cons.mp hx with rfl | hx
          · exact absurd hy hc
          · exact ⟨hx, hc⟩
      · have hnot : seen.contains y = false := by simpa using h
        rw [dedupFirstAux_cons_not_mem seen y ys hnot]
        have hy : y ∉ seen := by simpa using h
        simp only [List.mem_cons, mem_dedupFirstAux x ys (y :: seen)]
        constructor
        · rintro (rfl | ⟨hx, hc⟩)
          · exact ⟨Or.inl rfl, hy⟩
          · simp only [List.mem_cons, not_or] at hc
            exact ⟨Or.inr hx, hc.2⟩
        · rintro ⟨rfl | hx, hc⟩
          · exact Or.inl rfl
          · by_cases hxy : x = y
            · exact Or.inl hxy
            · refine Or.inr ⟨hx, ?_⟩
              simp [hxy, hc]

theorem nodup_dedupFirstAux :
    ∀ (l seen : List String), (dedupFirstAux seen l).Nodup
  | [], seen => List.nodup_nil
  | y :: ys, seen => by
      by_cases h : seen.contains y
      · rw [dedupFirstAux_cons_mem seen y ys h]
        exact nodup_dedupFirstAux ys seen
      · have hnot : seen.contains y = false := by simpa using h
        rw [dedupFirstAux_cons_not_mem seen y ys hnot]
        refine List.Nodup.cons ?_ (nodup_dedupFirstAux ys (y :: seen))
        intro hy
        rcases (mem_dedupFirstAux y ys (y :: seen)).mp hy with ⟨_, hc⟩
        simp at hc

theorem insertByShardID_perm (x : FlattenedShard) (l : List FlattenedShard) :
    List.Perm (insertByShardID x l) (x :: l) := by
  induction l with
  | nil => exact List.Perm.refl _
  | cons y ys ih =>
      by_cases h : charsLt x.shard_id.data y.shard_id.data
      · simp [insertByShardID, h]
      · rw [show insertByShardID x (y :: ys) = y :: insertByShardID x ys from by
          simp [insertByShardID, h]]
        exact (ih.cons y).trans (List.Perm.swap x y ys)

theorem sortByShardID_perm (l : List FlattenedShard) :
    List.Perm (sortByShardID l) l := by
  induction l with
  | nil => exact List.Perm.refl _
  | cons x xs ih =>
      exact (insertByShardID_perm x (sortByShardID xs)).trans (ih.cons x)

theorem reconcileShards_perm (remote : List ClusterInstanceResp) (declaredIDs : List String) :
    List.Perm (reconcileShards remote declaredIDs) (groupShards remote) := by
  unfold reconcileShards
  exact (List.filter_append_perm _ (sortByShardID (groupShards remote))).trans
    (sortByShardID_perm (groupShards remote))

theorem groupShards_ids (insts : List ClusterInstanceResp) :
    (groupShards insts).map (·.shard_id) = dedupFirstAux [] (insts.map (·.shardID)) := by
  unfold groupShards
  rw [List.map_map]
  exact List.map_id' _

theorem mem_groupShards_size (insts : List ClusterInstanceResp) (sh : FlattenedShard)
    (h : sh ∈ groupShards insts) :
    sh.size = (insts.filter fun inst => inst.shardID == sh.shard_id).length := by
  unfold groupShards at h
  rcases List.mem_map.mp h with ⟨sid, _, rfl⟩
  rfl

/-! ## Claim C6 -/

/-- C6: for every remote topology and declared ordering, the reconciled shard
list carries each remote shard id exactly once — no shard is fabricated,
dropped or duplicated — and each reconciled shard's size is the number of
remote instances carrying that shard id. -/
theorem reconciledView_shard_ids_and_sizes
    (remote : List ClusterInstanceResp) (declaredIDs : List String) :
    ((reconcileShards remote declaredIDs).map (·.shard_id)).Nodup
    ∧ (∀ sid : String,
        sid ∈ (reconcileShards remote declaredIDs).map (·.shard_id)
          ↔ sid ∈ remote.map (·.shardID))
    ∧ ((reconcileShards remote declaredIDs).all
        fun sh => sh.size == (remote.filter fun inst => inst.shardID == sh.shard_id).length)
      = true := by
  have hperm : List.Perm ((reconcileShards remote declaredIDs).map (·.shard_id))
      ((groupShards remote).map (·.shard_id)) :=
    (reconcileShards_perm remote declaredIDs).map _
  refine ⟨?_, ?_, ?_⟩
  · refine hperm.symm.nodup ?_
    rw [groupShards_ids]
    exact nodup_dedupFirstAux _ _
  · intro sid
    rw [hperm.mem_iff, groupShards_ids, mem_dedupFirstAux]
    simp
  · rw [List.all_eq_true]
    intro sh hsh
    have hg : sh ∈ groupShards remote :=
      ((reconcileShards_perm remote declaredIDs).mem_iff).mp hsh
    rw [mem_groupShards_size remote sh hg]
    simp

/-! ## Claim C2 -/

/-- Remote topology used only by C2: shards `A` (2 instances), `B` (1),
`C` (1). -/
def c2remote : List ClusterInstanceResp :=
  [⟨"inst-1", "A", []⟩, ⟨"inst-2", "A", []⟩, ⟨"inst-3", "B", []⟩, ⟨"inst-4", "C", []⟩]

/-- C2 fails on the code: with declared order `[B, A]` and remote shards
`{A, B, C}`, the read path emits `[A, B, C]` — the matched shards keep the
ascending sorted order of the `sort.Slice` at lines 978-980, not the declared
order — while the claim (and the code's own comment at line 977,
"Workaround to persist user order of shards") requires `[B, A, C]`. -/
theorem topologyReconciler_sorted_order_eval :
    (reconcileShards c2remote ["B", "A"]).map (·.shard_id) = ["A", "B", "C"]
    ∧ (reconcileShards c2remote ["B", "A"]).map (·.shard_id) ≠ ["B", "A", "C"] := by
  decide

/-! ## Helper lemmas: ordering of the update plan -/

/-- The canonical source-order list of the per-shard actions of loop index
`i` (lines 1098-1129). -/
def shardCanonical (i : Nat) (sid : String) : List UpdateAction :=
  [UpdateAction.resizeVolume i sid, UpdateAction.resizeWalVolume i sid,
   UpdateAction.resizeFlavor i sid, UpdateAction.grow i sid, UpdateAction.shrink i sid]

theorem ite_singleton_sublist (c : Prop) [Decidable c] (x : UpdateAction) :
    List.Sublist (if c then [x] else []) [x] := by
  split
  · exact List.Sublist.refl _
  · exact List.nil_sublist _

theorem mem_ite_singleton {c : Prop} [Decidable c] {x a : UpdateAction}
    (h : a ∈ (if c then [x] else [])) : a = x := by
  split at h
  · simpa using h
  · cases h

theorem shardUpdateActions_sublist (prevShards : List ShardSpec) (i : Nat) (s : ShardSpec) :
    List.Sublist (shardUpdateActions prevShards i s) (shardCanonical i s.shard_id) := by
  show List.Sublist _
    ((([UpdateAction.resizeVolume i s.shard_id] ++ [UpdateAction.resizeWalVolume i s.shard_id])
        ++ [UpdateAction.resizeFlavor i s.shard_id])
      ++ [UpdateAction.grow i s.shard_id, UpdateAction.shrink i s.shard_id])
  unfold shardUpdateActions
  refine List.Sublist.append (List.Sublist.append (List.Sublist.append ?_ ?_) ?_) ?_
  · exact ite_singleton_sublist _ _
  · exact ite_singleton_sublist _ _
  · exact ite_singleton_sublist _ _
  · split
    · split
      · exact (List.nil_sublist _).cons₂ _
      · split
        · exact ((List.nil_sublist _).cons₂ _).cons _
        · exact List.nil_sublist _
    · exact List.nil_sublist _

theorem mem_shardCanonical_priority {i : Nat} {sid : String} {a : UpdateAction}
    (h : a ∈ shardCanonical i sid) :
    5 + 5 * i ≤ a.priority ∧ a.priority ≤ 9 + 5 * i := by
  simp only [shardCanonical, List.mem_cons, List.not_mem_nil, or_false] at h
  rcases h with rfl | rfl | rfl | rfl | rfl <;>
    refine ⟨?_, ?_⟩ <;> simp only [UpdateAction.priority] <;> omega

theorem pairwise_shardCanonical (i : Nat) (sid : String) :
    (shardCanonical i sid).Pairwise fun a b => a.priority < b.priority := by
  simp [shardCanonical, List.pairwise_cons, UpdateAction.priority]

theorem pairwise_shardUpdateActions (prevShards : List ShardSpec) (i : Nat) (s : ShardSpec) :
    (shardUpdateActions prevShards i s).Pairwise fun a b => a.priority < b.priority :=
  (pairwise_shardCanonical i s.shard_id).sublist (shardUpdateActions_sublist prevShards i s)

theorem mem_shardUpdateActions_priority {prevShards : List ShardSpec} {i : Nat}
    {s : ShardSpec} {a : UpdateAction} (h : a ∈ shardUpdateActions prevShards i s) :
    5 + 5 * i ≤ a.priority ∧ a.priority ≤ 9 + 5 * i :=
  mem_shardCanonical_priority ((shardUpdateActions_sublist prevShards i s).subset h)

theorem mem_shardsUpdatePlan_priority (prevShards : List ShardSpec) :
    ∀ (l : List ShardSpec) (j : Nat) (a : UpdateAction),
      a ∈ shardsUpdatePlan prevShards j l → 5 + 5 * j ≤ a.priority
  | [], j, a, h => by cases h
  | s :: rest, j, a, h => by
      rcases List.mem_append.mp h with h | h
      · exact (mem_shardUpdateActions_priority h).1
      · have := mem_shardsUpdatePlan_priority prevShards rest (j + 1) a h
        omega

theorem pairwise_shardsUpdatePlan (prevShards : List ShardSpec) :
    ∀ (l : List ShardSpec) (j : Nat),
      (shardsUpdatePlan prevShards j l).Pairwise fun a b => a.priority < b.priority
  | [], j => List.Pairwise.nil
  | s :: rest, j => by
      refine List.pairwise_append.mpr
        ⟨pairwise_shardUpdateActions prevShards j s,
         pairwise_shardsUpdatePlan prevShards rest (j + 1), ?_⟩
      intro a ha b hb
      have h1 := (mem_shardUpdateActions_priority ha).2
      have h2 := mem_shardsUpdatePlan_priority prevShards rest (j + 1) b hb
      omega

theorem mem_topActions_priority {prev desired : ClusterSpec} {a : UpdateAction}
    (ha : a ∈ ((((if prev.configuration_id ≠ desired.configuration_id then [UpdateAction.attachConfiguration] else [])
      ++ (if prev.disk_autoexpand ≠ desired.disk_autoexpand then [UpdateAction.updateDiskAutoexpand] else []))
      ++ (if prev.wal_disk_autoexpand ≠ desired.wal_disk_autoexpand then [UpdateAction.updateWalDiskAutoexpand] else []))
      ++ (if prev.capabilities ≠ desired.capabilities then [UpdateAction.applyCapabilities] else []))
      ++ (if prev.cloud_monitoring_enabled ≠ desired.cloud_monitoring_enabled then [UpdateAction.updateCloudMonitoring] else [])) :
    a.priority ≤ 4 := by
  rcases List.mem_append.mp ha with ha | ha
  · rcases List.mem_append.mp ha with ha | ha
    · rcases List.mem_append.mp ha with ha | ha
      · rcases List.mem_append.mp ha with ha | ha
        · rw [mem_ite_singleton ha]; decide
        · rw [mem_ite_singleton ha]; decide
      · rw [mem_ite_singleton ha]; decide
    · rw [mem_ite_singleton ha]; decide
  · rw [mem_ite_singleton ha]; decide

theorem clusterUpdatePlan_pairwise (prev desired : ClusterSpec) :
    (clusterUpdatePlan prev desired).Pairwise fun a b => a.priority < b.priority := by
  unfold clusterUpdatePlan
  refine List.pairwise_append.mpr
    ⟨?_, pairwise_shardsUpdatePlan prev.shards desired.shards 0, ?_⟩
  · split_ifs <;>
      simp [List.pairwise_append, List.pairwise_cons, List.mem_cons, UpdateAction.priority]
  · intro a ha b hb
    have h4 : a.priority ≤ 4 := mem_topActions_priority ha
    have h5 := mem_shardsUpdatePlan_priority prev.shards desired.shards 0 b hb
    omega

/-! ## Claim C3 -/

/-- Shard used only by C3's example. -/
def c3shard : ShardSpec :=
  { shard_id := "X"
    size := 3
    shrink_options := []
    flavor_id := "flavor-1"
    volume_size := 10
    volume_type := "ceph"
    wal_volume := none
    network := []
    availability_zone := "az" }

/-- Previous state used only by C3's example. -/
def c3prev : ClusterSpec :=
  { name := "c3"
    floating_ip_enabled := false
    cloud_monitoring_enabled := false
    restore_point := none
    datastore := none
    disk_autoexpand := none
    wal_disk_autoexpand := none
    keypair := ""
    configuration_id := ""
    capabilities := []
    shards := [c3shard] }

/-- Desired state used only by C3's example: `configuration_id` set,
capabilities added, shard `X` grown from 3 to 5. -/
def c3desired : ClusterSpec :=
  { name := "c3"
    floating_ip_enabled := false
    cloud_monitoring_enabled := false
    restore_point := none
    datastore := none
    disk_autoexpand := none
    wal_disk_autoexpand := none
    keypair := ""
    configuration_id := "cfg-1"
    capabilities := [⟨"prometheus", []⟩]
    shards := [{ c3shard with size := 5 }] }

/-- C3: the update sequencer's emitted actions are always sorted by the fixed
priority order — configuration attach, disk autoexpand, WAL disk autoexpand,
capability application, monitoring toggle, then per-shard (in declared order)
volume resize, WAL volume resize, flavor resize, grow/shrink — and in
particular simultaneous changes of `configuration_id`, `capabilities` and one
shard's size increase always yield exactly
`[AttachConfiguration, ApplyCapabilities, Grow(X)]`. -/
theorem updateSequencer_fixed_priority_order :
    (∀ prev desired : ClusterSpec,
      (clusterUpdatePlan prev desired).Pairwise fun a b => a.priority < b.priority)
    ∧ clusterUpdatePlan c3prev c3desired
        = [UpdateAction.attachConfiguration, UpdateAction.applyCapabilities,
           UpdateAction.grow 0 "X"] :=
  ⟨clusterUpdatePlan_pairwise, by decide⟩

/-! ## Helper lemmas: grow/shrink counting (claim C4) -/

/-- Is this the Grow action of loop index `i`? -/
def isGrowAt (i : Nat) : UpdateAction → Bool
  | .grow j _ => i == j
  | _ => false

/-- Is this the Shrink action of loop index `i`? -/
def isShrinkAt (i : Nat) : UpdateAction → Bool
  | .shrink j _ => i == j
  | _ => false

theorem isGrowAt_priority {i : Nat} {a : UpdateAction} (h : isGrowAt i a = true) :
    a.priority = 8 + 5 * i := by
  cases a <;> simp [isGrowAt] at h
  subst h
  rfl

theorem isShrinkAt_priority {i : Nat} {a : UpdateAction} (h : isShrinkAt i a = true) :
    a.priority = 9 + 5 * i := by
  cases a <;> simp [isShrinkAt] at h
  subst h
  rfl

theorem countP_grow_block (prevShards : List ShardSpec) (i : Nat) (s : ShardSpec) :
    (shardUpdateActions prevShards i s).countP (isGrowAt i)
      = if ((prevShards.get? i).getD defaultShardSpec).size < s.size then 1 else 0 := by
  unfold shardUpdateActions
  simp only [List.countP_append, List.countP_cons, List.countP_nil]
  split_ifs <;> simp_all [isGrowAt] <;> omega

theorem countP_shrink_block (prevShards : List ShardSpec) (i : Nat) (s : ShardSpec) :
    (shardUpdateActions prevShards i s).countP (isShrinkAt i)
      = if s.size < ((prevShards.get? i).getD defaultShardSpec).size then 1 else 0 := by
  unfold shardUpdateActions
  simp only [List.countP_append, List.countP_cons, List.countP_nil]
  split_ifs <;> simp_all [isShrinkAt] <;> omega

theorem countP_grow_block_zero (prevShards : List ShardSpec) (j : Nat) (s : ShardSpec)
    (i : Nat) (h : j < i) :
    (shardUpdateActions prevShards j s).countP (isGrowAt i) = 0 := by
  rw [List.countP_eq_zero]
  intro a ha hcontra
  have hp := mem_shardUpdateActions_priority ha
  have he := isGrowAt_priority hcontra
  omega

theorem countP_shrink_block_zero (prevShards : List ShardSpec) (j : Nat) (s : ShardSpec)
    (i : Nat) (h : j < i) :
    (shardUpdateActions prevShards j s).countP (isShrinkAt i) = 0 := by
  rw [List.countP_eq_zero]
  intro a ha hcontra
  have hp := mem_shardUpdateActions_priority ha
  have he := isShrinkAt_priority hcontra
  omega

theorem countP_grow_plan_zero (prevShards : List ShardSpec) (l : List ShardSpec)
    (j i : Nat) (h : i < j) :
    (shardsUpdatePlan prevShards j l).countP (isGrowAt i) = 0 := by
  rw [List.countP_eq_zero]
  intro a ha hcontra
  have hp := mem_shardsUpdatePlan_priority prevShards l j a ha
  have he := isGrowAt_priority hcontra
  omega

theorem countP_shrink_plan_zero (prevShards : List ShardSpec) (l : List ShardSpec)
    (j i : Nat) (h : i < j) :
    (shardsUpdatePlan prevShards j l).countP (isShrinkAt i) = 0 := by
  rw [List.countP_eq_zero]
  intro a ha hcontra
  have hp := mem_shardsUpdatePlan_priority prevShards l j a ha
  have he := isShrinkAt_priority hcontra
  omega

theorem countP_grow_plan (prevShards : List ShardSpec) :
    ∀ (l : List ShardSpec) (j i : Nat) (s : ShardSpec), l.get? i = some s →
      (shardsUpdatePlan prevShards j l).countP (isGrowAt (j + i))
        = if ((prevShards.get? (j + i)).getD defaultShardSpec).size < s.size then 1 else 0
  | [], j, i, s, h => by cases h
  | s0 :: rest, j, 0, s, h => by
      have hs : s0 = s := by simpa using h
      subst hs
      rw [show shardsUpdatePlan prevShards j (s0 :: rest)
            = shardUpdateActions prevShards j s0 ++ shardsUpdatePlan prevShards (j + 1) rest
          from rfl]
      rw [List.countP_append, Nat.add_zero, countP_grow_block,
        countP_grow_plan_zero prevShards rest (j + 1) j (Nat.lt_succ_self j)]
      omega
  | s0 :: rest, j, i + 1, s, h => by
      have h2 : rest.get? i = some s := by simpa using h
      have ih := countP_grow_plan prevShards rest (j + 1) i s h2
      rw [show j + (i + 1) = (j + 1) + i from by omega]
      rw [show shardsUpdatePlan prevShards j (s0 :: rest)
            = shardUpdateActions prevShards j s0 ++ shardsUpdatePlan prevShards (j + 1) rest
          from rfl]
      rw [List.countP_append,
        countP_grow_block_zero prevShards j s0 ((j + 1) + i) (by omega), ih]
      omega

theorem countP_shrink_plan (prevShards : List ShardSpec) :
    ∀ (l : List ShardSpec) (j i : Nat) (s : ShardSpec), l.get? i = some s →
      (shardsUpdatePlan prevShards j l).countP (isShrinkAt (j + i))
        = if s.size < ((prevShards.get? (j + i)).getD defaultShardSpec).size then 1 else 0
  | [], j, i, s, h => by cases h
  | s0 :: rest, j, 0, s, h => by
      have hs : s0 = s := by simpa using h
      subst hs
      rw [show shardsUpdatePlan prevShards j (s0 :: rest)
            = shardUpdateActions prevShards j s0 ++ shardsUpdatePlan prevShards (j + 1) rest
          from rfl]
      rw [List.countP_append, Nat.add_zero, countP_shrink_block,
        countP_shrink_plan_zero prevShards rest (j + 1) j (Nat.lt_succ_self j)]
      omega
  | s0 :: rest, j, i + 1, s, h => by
      have h2 : rest.get? i = some s := by simpa using h
      have ih := countP_shrink_plan prevShards rest (j + 1) i s h2
      rw [show j + (i + 1) = (j + 1) + i from by omega]
      rw [show shardsUpdatePlan prevShards j (s0 :: rest)
            = shardUpdateActions prevShards j s0 ++ shardsUpdatePlan prevShards (j + 1) rest
          from rfl]
      rw [List.countP_append,
        countP_shrink_block_zero prevShards j s0 ((j + 1) + i) (by omega), ih]
      omega

theorem countP_top_zero {prev desired : ClusterSpec} {p : UpdateAction → Bool}
    (hp : ∀ a, p a = true → 5 ≤ a.priority) :
    ((((if prev.configuration_id ≠ desired.configuration_id then [UpdateAction.attachConfiguration] else [])
      ++ (if prev.disk_autoexpand ≠ desired.disk_autoexpand then [UpdateAction.updateDiskAutoexpand] else []))
      ++ (if prev.wal_disk_autoexpand ≠ desired.wal_disk_autoexpand then [UpdateAction.updateWalDiskAutoexpand] else []))
      ++ (if prev.capabilities ≠ desired.capabilities then [UpdateAction.applyCapabilities] else [])
      ++ (if prev.cloud_monitoring_enabled ≠ desired.cloud_monitoring_enabled then [UpdateAction.updateCloudMonitoring] else [])).countP p
      = 0 := by
  rw [List.countP_eq_zero]
  intro a ha hcontra
  have h4 := mem_topActions_priority ha
  have h5 := hp a hcontra
  omega

theorem countP_grow_clusterUpdatePlan (prev desired : ClusterSpec) (i : Nat) (s : ShardSpec)
    (h : desired.shards.get? i = some s) :
    (clusterUpdatePlan prev desired).countP (isGrowAt i)
      = if ((prev.shards.get? i).getD defaultShardSpec).size < s.size then 1 else 0 := by
  unfold clusterUpdatePlan
  rw [List.countP_append,
    countP_top_zero (fun a ha => by rw [isGrowAt_priority ha]; omega)]
  have hc := countP_grow_plan prev.shards desired.shards 0 i s h
  rw [Nat.zero_add] at hc
  rw [hc]
  omega

theorem countP_shrink_clusterUpdatePlan (prev desired : ClusterSpec) (i : Nat) (s : ShardSpec)
    (h : desired.shards.get? i = some s) :
    (clusterUpdatePlan prev desired).countP (isShrinkAt i)
      = if s.size < ((prev.shards.get? i).getD defaultShardSpec).size then 1 else 0 := by
  unfold clusterUpdatePlan
  rw [List.countP_append,
    countP_top_zero (fun a ha => by rw [isShrinkAt_priority ha]; omega)]
  have hc := countP_shrink_plan prev.shards desired.shards 0 i s h
  rw [Nat.zero_add] at hc
  rw [hc]
  omega

/-! ## Claim C4 -/

/-- C4: for a shard at update-loop index `i`, a size delta of 0 plans no
grow/shrink action, a positive delta plans exactly one Grow, a negative delta
exactly one Shrink; and a shrink whose supplied `shrink_options` has length
different from the delta fails with the shrink-options error, issuing no
remote call. -/
theorem growShrink_boundary (prev desired : ClusterSpec) (i : Nat) (s : ShardSpec)
    (h : desired.shards.get? i = some s) :
    ((clusterUpdatePlan prev desired).countP (isGrowAt i)
        = if ((prev.shards.get? i).getD defaultShardSpec).size < s.size then 1 else 0)
    ∧ ((clusterUpdatePlan prev desired).countP (isShrinkAt i)
        = if s.size < ((prev.shards.get? i).getD defaultShardSpec).size then 1 else 0)
    ∧ (∀ (opts : List String) (delta : Nat) (insts : List ShrinkInstance),
        opts ≠ [] → opts.length ≠ delta →
        databaseClusterActionShrink opts delta insts
          = Except.error DBErrSentinel.errDBClusterActionShrinkWrongOptions) := by
  refine ⟨countP_grow_clusterUpdatePlan prev desired i s h,
    countP_shrink_clusterUpdatePlan prev desired i s h, ?_⟩
  intro opts delta insts hne hlen
  unfold databaseClusterActionShrink
  rw [if_neg (by simp [List.isEmpty_iff, hne]),
    if_neg (fun hc => hlen hc.1)]

/-- Shard used only by C4's witness (previous size 3). -/
def c4shard : ShardSpec :=
  { shard_id := "X"
    size := 3
    shrink_options := []
    flavor_id := "flavor-1"
    volume_size := 10
    volume_type := "ceph"
    wal_volume := none
    network := []
    availability_zone := "az" }

/-- Previous state used only by C4's witness. -/
def c4prev : ClusterSpec :=
  { name := "c4"
    floating_ip_enabled := false
    cloud_monitoring_enabled := false
    restore_point := none
    datastore := none
    disk_autoexpand := none
    wal_disk_autoexpand := none
    keypair := ""
    configuration_id := ""
    capabilities := []
    shards := [c4shard] }

/-- Desired state used only by C4's witness: size shrunk from 3 to 1. -/
def c4desired : ClusterSpec :=
  { name := "c4"
    floating_ip_enabled := false
    cloud_monitoring_enabled := false
    restore_point := none
    datastore := none
    disk_autoexpand := none
    wal_disk_autoexpand := none
    keypair := ""
    configuration_id := ""
    capabilities := []
    shards := [{ c4shard with size := 1 }] }

/-- Witness for C4: shrinking a shard from 3 to 1 plans no Grow and exactly
one Shrink, and options of the wrong length (1 instead of 2) fail with the
shrink-options error. -/
theorem growShrink_boundary_witness :
    ((clusterUpdatePlan c4prev c4desired).countP (isGrowAt 0) = 0)
    ∧ ((clusterUpdatePlan c4prev c4desired).countP (isShrinkAt 0) = 1)
    ∧ databaseClusterActionShrink ["inst-a"] 2 []
        = Except.error DBErrSentinel.errDBClusterActionShrinkWrongOptions := by
  have h := growShrink_boundary c4prev c4desired 0 { c4shard with size := 1 } (by decide)
  exact ⟨h.1.trans (by decide), h.2.1.trans (by decide),
    h.2.2 ["inst-a"] 2 [] (by decide) (by decide)⟩

/-! ## Claim C9 -/

/-- Equality of two shard blocks on every field except `shrink_options`. -/
def eqExceptShrinkOptions (a b : ShardSpec) : Prop :=
  a.shard_id = b.shard_id ∧ a.size = b.size ∧ a.flavor_id = b.flavor_id
  ∧ a.volume_size = b.volume_size ∧ a.volume_type = b.volume_type
  ∧ a.wal_volume = b.wal_volume ∧ a.network = b.network
  ∧ a.availability_zone = b.availability_zone

theorem shardUpdateActions_nil_of_eq (prevShards : List ShardSpec) (i : Nat) (s : ShardSpec)
    (h : eqExceptShrinkOptions ((prevShards.get? i).getD defaultShardSpec) s) :
    shardUpdateActions prevShards i s = [] := by
  obtain ⟨h1, h2, h3, h4, h5, h6, h7, h8⟩ := h
  simp only [List.get?_eq_getElem?] at h2 h3 h4 h6
  unfold shardUpdateActions
  simp [h2, h3, h4, h6]

theorem shardsUpdatePlan_nil (prevShards : List ShardSpec) :
    ∀ (l : List ShardSpec) (j : Nat),
      (∀ (i : Nat) (s : ShardSpec), l.get? i = some s →
        eqExceptShrinkOptions ((prevShards.get? (j + i)).getD defaultShardSpec) s) →
      shardsUpdatePlan prevShards j l = []
  | [], _, _ => rfl
  | s0 :: rest, j, h => by
      have h0 := h 0 s0 rfl
      rw [Nat.add_zero] at h0
      have hrest : ∀ (i : Nat) (s : ShardSpec), rest.get? i = some s →
          eqExceptShrinkOptions ((prevShards.get? ((j + 1) + i)).getD defaultShardSpec) s := by
        intro i s hi
        have hx := h (i + 1) s (by simpa using hi)
        rwa [show j + (i + 1) = (j + 1) + i from by omega] at hx
      show shardUpdateActions prevShards j s0
          ++ shardsUpdatePlan prevShards (j + 1) rest = []
      rw [shardUpdateActions_nil_of_eq prevShards j s0 h0,
        shardsUpdatePlan_nil prevShards rest (j + 1) hrest]
      rfl

/-- C9: two states that differ only in some shards' `shrink_options` produce
an empty update plan — no action is planned or executed — and the schema
`DiffSuppressFunc` for `shrink_options` suppresses every diff; the field is
consulted only by the shrink executor. -/
theorem shrinkOptions_only_change_plans_nothing (prev desired : ClusterSpec)
    (hconf : prev.configuration_id = desired.configuration_id)
    (hdae : prev.disk_autoexpand = desired.disk_autoexpand)
    (hwdae : prev.wal_disk_autoexpand = desired.wal_disk_autoexpand)
    (hcap : prev.capabilities = desired.capabilities)
    (hmon : prev.cloud_monitoring_enabled = desired.cloud_monitoring_enabled)
    (hshards : List.Forall₂ eqExceptShrinkOptions prev.shards desired.shards) :
    clusterUpdatePlan prev desired = []
    ∧ (∀ (res : UpdateAction → Option UpdateErr) (cid : List Char),
        resourceDatabaseClusterWithShardsUpdate res cid prev desired = (none, []))
    ∧ (∀ k old new : String, shrinkOptionsDiffSuppress k old new = true) := by
  have hplan : clusterUpdatePlan prev desired = [] := by
    unfold clusterUpdatePlan
    rw [if_neg (by simp [hconf]), if_neg (by simp [hdae]), if_neg (by simp [hwdae]),
      if_neg (by simp [hcap]), if_neg (by simp [hmon])]
    simp only [List.nil_append, List.append_nil]
    apply shardsUpdatePlan_nil
    intro i s hi
    rw [Nat.zero_add]
    obtain ⟨hlen, hget⟩ := List.forall₂_iff_get.mp hshards
    rcases List.get?_eq_some.mp hi with ⟨hlt, hgeti⟩
    have hp : prev.shards.get? i = some (prev.shards.get ⟨i, by omega⟩) :=
      List.get?_eq_get (by omega)
    have hx := hget i (by omega) hlt
    rw [hgeti] at hx
    have hp2 : (prev.shards.get? i).getD defaultShardSpec
        = prev.shards.get ⟨i, by omega⟩ := by
      rw [hp]
      rfl
    rw [hp2]
    simpa using hx
  refine ⟨hplan, ?_, fun _ _ _ => rfl⟩
  intro res cid
  unfold resourceDatabaseClusterWithShardsUpdate
  rw [hplan]
  rfl

/-- Shard used only by C9's witness. -/
def c9shard : ShardSpec :=
  { shard_id := "X"
    size := 2
    shrink_options := []
    flavor_id := "flavor-1"
    volume_size := 10
    volume_type := "ceph"
    wal_volume := none
    network := []
    availability_zone := "az" }

/-- Previous state used only by C9's witness. -/
def c9prev : ClusterSpec :=
  { name := "c9"
    floating_ip_enabled := false
    cloud_monitoring_enabled := false
    restore_point := none
    datastore := none
    disk_autoexpand := none
    wal_disk_autoexpand := none
    keypair := ""
    configuration_id := ""
    capabilities := []
    shards := [c9shard] }

/-- Desired state used only by C9's witness: only `shrink_options` differs. -/
def c9desired : ClusterSpec :=
  { name := "c9"
    floating_ip_enabled := false
    cloud_monitoring_enabled := false
    restore_point := none
    datastore := none
    disk_autoexpand := none
    wal_disk_autoexpand := none
    keypair := ""
    configuration_id := ""
    capabilities := []
    shards := [{ c9shard with shrink_options := ["inst-keep"] }] }

/-- Witness for C9 at a concrete pair differing only in `shrink_options`. -/
theorem shrinkOptions_only_change_plans_nothing_witness :
    clusterUpdatePlan c9prev c9desired = []
    ∧ resourceDatabaseClusterWithShardsUpdate (fun _ => none) [] c9prev c9desired
        = (none, []) := by
  have h := shrinkOptions_only_change_plans_nothing c9prev c9desired rfl rfl rfl rfl rfl
    (List.Forall₂.cons ⟨rfl, rfl, rfl, rfl, rfl, rfl, rfl, rfl⟩ List.Forall₂.nil)
  exact ⟨h.1, h.2.1 (fun _ => none) []⟩

/-! ## Helper lemmas: error-message processing (claim C5) -/

theorem charsPrefix_iff : ∀ (p l : List Char), charsPrefix p l = true ↔ ∃ t, p ++ t = l
  | [], l => by simp [charsPrefix]
  | p :: ps, [] => by simp [charsPrefix]
  | p :: ps, c :: cs => by
      simp only [charsPrefix, Bool.and_eq_true, beq_iff_eq]
      rw [charsPrefix_iff ps cs]
      constructor
      · rintro ⟨rfl, t, rfl⟩
        exact ⟨t, rfl⟩
      · rintro ⟨t, ht⟩
        injection ht with h1 h2
        exact ⟨h1, t, h2⟩

theorem replaceFirst_decomp (pat new : List Char) :
    ∀ (hay : List Char), List.IsInfix pat hay →
      ∃ pre post, pre ++ pat ++ post = hay
        ∧ replaceFirst pat new hay = pre ++ new ++ post
  | [], hinf => by
      obtain ⟨s, t, hst⟩ := hinf
      have h0 : s = [] ∧ pat = [] ∧ t = [] := by simpa using hst
      obtain ⟨rfl, rfl, rfl⟩ := h0
      exact ⟨[], [], rfl, by simp [replaceFirst, charsPrefix]⟩
  | c :: rest, hinf => by
      by_cases hp : charsPrefix pat (c :: rest) = true
      · obtain ⟨t, ht⟩ := (charsPrefix_iff pat (c :: rest)).mp hp
        refine ⟨[], t, by simpa using ht, ?_⟩
        rw [show replaceFirst pat new (c :: rest)
              = if charsPrefix pat (c :: rest) then new ++ List.drop pat.length (c :: rest)
                else c :: replaceFirst pat new rest from rfl]
        rw [if_pos hp, ← ht, List.drop_left]
        simp
      · obtain ⟨s, t, hst⟩ := hinf
        cases s with
        | nil =>
            exfalso
            apply hp
            rw [charsPrefix_iff]
            exact ⟨t, by simpa using hst⟩
        | cons s0 s' =>
            have h1 : s0 = c ∧ (s' ++ pat) ++ t = rest := by
              simpa using hst
            obtain ⟨ihPre, ihPost, hh1, hh2⟩ :=
              replaceFirst_decomp pat new rest ⟨s', t, h1.2⟩
            refine ⟨c :: ihPre, ihPost, by simp [hh1], ?_⟩
            rw [show replaceFirst pat new (c :: rest)
                  = if charsPrefix pat (c :: rest) then new ++ List.drop pat.length (c :: rest)
                    else c :: replaceFirst pat new rest from rfl]
            rw [if_neg hp, hh2]
            simp

theorem infix_append_end (a c : List Char) : List.IsInfix c (a ++ c) :=
  ⟨a, [], by simp⟩

theorem infix_append_mid (a b c : List Char) : List.IsInfix c (a ++ c ++ b) :=
  ⟨a, b, rfl⟩

theorem infix_append_mid2 (a b c d : List Char) : List.IsInfix c (a ++ c ++ b ++ d) :=
  ⟨a, b ++ d, by simp⟩

/-- Every sentinel replacement message names the cluster id. -/
theorem sentinelMsg_contains_clusterID (s : DBErrSentinel) (cid sid : List Char) :
    List.IsInfix cid (sentinelMsg s cid sid) := by
  cases s <;> first
    | exact infix_append_end _ _
    | exact infix_append_mid _ _ _

/-- Every shard-scoped sentinel replacement message names the shard id. -/
theorem sentinelMsg_contains_shardID (s : DBErrSentinel) (cid sid : List Char)
    (h : s.shardScoped = true) :
    List.IsInfix sid (sentinelMsg s cid sid) := by
  cases s <;> first
    | exact absurd h (by decide)
    | exact infix_append_mid2 _ _ _ _

/-- The processed diagnostic splices the sentinel's enriched message into the
full error text exactly where the base error's text stood. -/
theorem processError_decomp (e : UpdateErr) (s : DBErrSentinel) (hbase : e.base = some s)
    (cid sid : List Char) :
    ∃ pre post, pre ++ e.baseText ++ post = e.fullText
      ∧ databaseClusterWithShardsUpdateProcessError e cid sid
          = pre ++ sentinelMsg s cid sid ++ post := by
  have hinf : List.IsInfix e.baseText e.fullText := by
    unfold UpdateErr.fullText
    cases e.wrapText with
    | none => exact ⟨[], [], by simp⟩
    | some w => exact ⟨w, [], by simp⟩
  obtain ⟨pre, post, h1, h2⟩ :=
    replaceFirst_decomp e.baseText (sentinelMsg s cid sid) e.fullText hinf
  refine ⟨pre, post, h1, ?_⟩
  unfold databaseClusterWithShardsUpdateProcessError UpdateErr.baseTextOf
  rw [hbase]
  exact h2

/-- Execution stops at the first failing action: the trace is exactly the
prefix up to and including the failing action, and the single diagnostic is
the processed error of that action. -/
theorem execPlanTrace_first_failure (res : UpdateAction → Option UpdateErr)
    (cid : List Char) :
    ∀ (acts : List UpdateAction) (k : Nat) (a : UpdateAction) (e : UpdateErr),
      acts.get? k = some a → res a = some e →
      (∀ (j : Nat) (b : UpdateAction), j < k → acts.get? j = some b → res b = none) →
      execPlanTrace res cid acts
        = (some (databaseClusterWithShardsUpdateProcessError e cid a.shardOf.data),
           acts.take (k + 1))
  | [], k, a, e, hk, _, _ => by cases hk
  | b :: rest, 0, a, e, hk, hres, _ => by
      have hb : b = a := by simpa using hk
      subst hb
      unfold execPlanTrace
      rw [hres]
      rfl
  | b :: rest, k + 1, a, e, hk, hres, hprev => by
      have hb : res b = none := hprev 0 b (Nat.succ_pos k) rfl
      have hk2 : rest.get? k = some a := by simpa using hk
      have hprev2 : ∀ (j : Nat) (c : UpdateAction), j < k → rest.get? j = some c →
          res c = none := fun j c hj hjc => hprev (j + 1) c (by omega) (by simpa using hjc)
      have ih := execPlanTrace_first_failure res cid rest k a e hk2 hres hprev2
      unfold execPlanTrace
      rw [hb, ih]
      rfl

/-! ## Claim C5 -/

/-- C5: the update run stops at the first action whose helper fails — the
attempted trace is exactly the plan prefix up to and including that action —
and exactly one diagnostic is produced: the full error text with the base
error's text replaced by the sentinel message, which names the cluster id,
the shard id when the action is shard-scoped, and the failing action (the
sentinel message is that action's description), while the wrapping text
around the base error is retained. -/
theorem updateSequencer_stops_at_first_failure
    (res : UpdateAction → Option UpdateErr) (cid : List Char)
    (acts : List UpdateAction) (k : Nat) (a : UpdateAction) (e : UpdateErr)
    (s : DBErrSentinel)
    (hk : acts.get? k = some a) (hres : res a = some e) (hbase : e.base = some s)
    (hprev : ∀ (j : Nat) (b : UpdateAction), j < k → acts.get? j = some b → res b = none) :
    execPlanTrace res cid acts
      = (some (databaseClusterWithShardsUpdateProcessError e cid a.shardOf.data),
         acts.take (k + 1))
    ∧ (∃ pre post, pre ++ e.baseText ++ post = e.fullText
        ∧ databaseClusterWithShardsUpdateProcessError e cid a.shardOf.data
            = pre ++ sentinelMsg s cid a.shardOf.data ++ post)
    ∧ List.IsInfix cid (databaseClusterWithShardsUpdateProcessError e cid a.shardOf.data)
    ∧ (s.shardScoped = true →
        List.IsInfix a.shardOf.data
          (databaseClusterWithShardsUpdateProcessError e cid a.shardOf.data)) := by
  obtain ⟨pre, post, h1, h2⟩ := processError_decomp e s hbase cid a.shardOf.data
  refine ⟨execPlanTrace_first_failure res cid acts k a e hk hres hprev,
    ⟨pre, post, h1, h2⟩, ?_, ?_⟩
  · rw [h2]
    exact (sentinelMsg_contains_clusterID s cid a.shardOf.data).trans
      (infix_append_mid pre post _)
  · intro hsc
    rw [h2]
    exact (sentinelMsg_contains_shardID s cid a.shardOf.data hsc).trans
      (infix_append_mid pre post _)

/-- Error value used only by C5's witness: a wrapped grow failure. -/
def c5err : UpdateErr :=
  { base := some DBErrSentinel.errDBClusterActionGrow
    baseText := "grow failed".data
    wrapText := some "action error: ".data }

/-- Plan used only by C5's witness. -/
def c5acts : List UpdateAction :=
  [UpdateAction.grow 0 "X"]

/-- Executor results used only by C5's witness. -/
def c5res : UpdateAction → Option UpdateErr :=
  fun _ => some c5err

/-- Witness for C5 at a concrete failing grow action. -/
theorem updateSequencer_stops_at_first_failure_witness :
    execPlanTrace c5res "cluster-1".data c5acts
      = (some (databaseClusterWithShardsUpdateProcessError c5err "cluster-1".data "X".data),
         c5acts)
    ∧ List.IsInfix "cluster-1".data
        (databaseClusterWithShardsUpdateProcessError c5err "cluster-1".data "X".data)
    ∧ List.IsInfix "X".data
        (databaseClusterWithShardsUpdateProcessError c5err "cluster-1".data "X".data) := by
  have h := updateSequencer_stops_at_first_failure c5res "cluster-1".data c5acts 0
    (UpdateAction.grow 0 "X") c5err DBErrSentinel.errDBClusterActionGrow
    rfl rfl rfl (fun j b hj _ => absurd hj (Nat.not_lt_zero j))
  exact ⟨h.1, h.2.2.1, h.2.2.2 rfl⟩
